import Mathlib

/-!
Verification of the Authorization & Synchronization Orchestrator of the
obsidian-google-docs plugin (src/main.ts), as a shallow embedding.

The embedding follows `src/main.ts` line by line:
* `GoogleDocsSettings`, `DEFAULT_SETTINGS`, `googleDocsUrl` are the literal
  data model of the source.
* External collaborators (the `markdown-to-google-docs` client functions
  `hasValidToken`, `getNewToken`, `findOrCreateDoc`, `hasOpenComments`, the
  platform `JSON.parse`/`JSON.stringify`) are modelled as an oracle
  environment `Env` of pure functions — the source awaits each exactly once
  per use, so a pure function of the call arguments is a faithful model of
  the single-threaded cooperative runtime.
* Side effects (notices, clipboard writes, browser launches, listener
  starts, settings persistence, remote-store calls) are recorded in an
  explicit trace of `Effect` values, in source order.
* A thrown JavaScript exception (the `JSON.parse` failure on an unparseable
  token blob, a rejected token promise) is an `Except.error`.
* `createGoogleDoc` (the push operation) returns `undefined` in the source
  on both terminal paths; the embedding additionally tags which terminal
  path was taken (`PushOutcome.conflict` vs `PushOutcome.updated`) so that
  outcomes can be named in theorems.  The tag adds no behaviour.
-/

/-- The persisted settings record of `src/main.ts` (interface
`GoogleDocsSettings`). -/
structure GoogleDocsSettings where
  googleDriveFolderId : String
  credentials : String
  tokens : String
deriving Repr, DecidableEq

/-- `DEFAULT_SETTINGS` of `src/main.ts`: all three fields empty. -/
def DEFAULT_SETTINGS : GoogleDocsSettings :=
  { googleDriveFolderId := "", credentials := "", tokens := "" }

/-- `googleDocsUrl` of `src/main.ts`: the document link for a document id. -/
def googleDocsUrl (documentId : String) : String :=
  "https://docs.google.com/document/d/" ++ documentId

/-- Opaque OAuth client handle, produced by the collaborator `getClient`.
The source constructs it purely from the credentials blob. -/
structure Client where
  credentialContent : String
deriving Repr, DecidableEq

/-- `getClient(\x7bcredentialContent\x7d)` of the collaborator: pure
construction from the credentials blob (no network call, per the spec's
collaborator contract). -/
def getClient (credentialContent : String) : Client :=
  { credentialContent := credentialContent }

/-- Opaque deserialized token set (the value `JSON.parse(tokens)` yields). -/
structure Tokens where
  blob : String
deriving Repr, DecidableEq

/-- Opaque local-listener handle returned by `getNewToken` (the `server`
component); stored in `this.authorizationServer`. -/
structure ServerHandle where
  id : Nat
deriving Repr, DecidableEq

/-- In-memory plugin state: the settings record plus the single-flight
guard slot `authorizationServer` (`null` = `none`). -/
structure PluginState where
  settings : GoogleDocsSettings
  authorizationServer : Option ServerHandle
deriving Repr, DecidableEq

/-- One observable side effect, in source order. -/
inductive Effect where
  | notice (message : String)
  | clipboardWrite (text : String)
  | browserOpen (url : String)
  | getNewTokenCall
  | saveSettingsCall (s : GoogleDocsSettings)
  | findOrCreateDocCall (title folderId : String) (auth : Option Client) (docId : String)
  | hasOpenCommentsCall (auth : Option Client) (docId : String)
  | updateHtmlCall (docId content : String) (auth : Option Client) (wipe : Bool)
deriving Repr, DecidableEq

/-- A thrown JavaScript exception escaping an operation. -/
inductive JsError where
  | jsonParse
  | authFailed
deriving Repr, DecidableEq

/-- Oracle environment for the external collaborators.  Each field models
one delegated operation as a pure function of its call arguments. -/
structure Env where
  /-- `JSON.parse` applied to the token blob; `none` models a thrown
  `SyntaxError` (in JavaScript, `JSON.parse("")` throws). -/
  parseTokens : String → Option Tokens
  /-- `JSON.stringify` applied to a fresh token set. -/
  stringifyTokens : Tokens → String
  /-- Collaborator `hasValidToken(client, parsedTokens)`. -/
  hasValidToken : Client → Tokens → Bool
  /-- Collaborator `getNewToken(client)`: the listener handle, the
  authorize url, and the eventual result of the token promise (`none`
  models a rejected promise). -/
  getNewToken : Client → ServerHandle × String × Option Tokens
  /-- Collaborator `findOrCreateDoc(title, folderId, auth)`: the resolved
  document id.  A pure function of its arguments, matching the spec's
  determinism contract. -/
  findOrCreateDoc : String → String → Option Client → String
  /-- Collaborator `hasOpenComments(auth, documentId)`. -/
  hasOpenComments : Option Client → String → Bool

/-- `GoogleDocsPlugin.getAuth` of `src/main.ts`, lines 65-95.  Returns the
result (`ok none` models the bare `return` of the already-authenticating
branch, `ok (some auth)` the final `return auth`), the post-state and the
effect trace. -/
def getAuth (env : Env) (st : PluginState) :
    Except JsError (Option Client) × PluginState × List Effect :=
  match st.authorizationServer with
  | some _ =>
      (Except.ok none, st,
        [Effect.notice "Already authenticating, complete authorization."])
  | none =>
      let auth := getClient st.settings.credentials
      match env.parseTokens st.settings.tokens with
      | none => (Except.error JsError.jsonParse, st, [])
      | some parsed =>
          if env.hasValidToken auth parsed then
            (Except.ok (some auth), st, [])
          else
            let r := env.getNewToken auth
            let server := r.1
            let authorizeUrl := r.2.1
            let tokenResult := r.2.2
            let effs : List Effect :=
              [Effect.getNewTokenCall,
               Effect.notice "Authenticate to continue. A browser window will open and authorization url is copied to clipboard.",
               Effect.clipboardWrite authorizeUrl,
               Effect.browserOpen authorizeUrl]
            let st1 : PluginState :=
              { st with authorizationServer := some server }
            match tokenResult with
            | none => (Except.error JsError.authFailed, st1, effs)
            | some tokens =>
                let newSettings : GoogleDocsSettings :=
                  { st1.settings with tokens := env.stringifyTokens tokens }
                let st2 : PluginState := { st1 with settings := newSettings }
                (Except.ok (some auth), st2,
                  effs ++
                    [Effect.saveSettingsCall newSettings,
                     Effect.notice "Authentication complete!"])

/-- Which terminal path `createGoogleDoc` took (the source returns
`undefined` on both; the tag only names the path). -/
inductive PushOutcome where
  | conflict (link : String)
  | updated (link : String)
deriving Repr, DecidableEq

/-- `GoogleDocsPlugin.createGoogleDoc` of `src/main.ts`, lines 105-119
(the push operation). -/
def createGoogleDoc (env : Env) (st : PluginState) (title content : String) :
    Except JsError PushOutcome × PluginState × List Effect :=
  match getAuth env st with
  | (Except.error e, st1, effs) => (Except.error e, st1, effs)
  | (Except.ok auth, st1, effs) =>
      let documentId :=
        env.findOrCreateDoc title st1.settings.googleDriveFolderId auth
      let effs1 := effs ++
        [Effect.findOrCreateDocCall title st1.settings.googleDriveFolderId auth documentId,
         Effect.hasOpenCommentsCall auth documentId]
      if env.hasOpenComments auth documentId then
        (Except.ok (PushOutcome.conflict (googleDocsUrl documentId)), st1,
          effs1 ++
            [Effect.notice "Document has open comments. Please resolve them before pushing content.",
             Effect.clipboardWrite (googleDocsUrl documentId)])
      else
        (Except.ok (PushOutcome.updated (googleDocsUrl documentId)), st1,
          effs1 ++
            [Effect.updateHtmlCall documentId content auth true,
             Effect.clipboardWrite (googleDocsUrl documentId),
             Effect.notice "Document updated."])

/-- `GoogleDocsPlugin.openGoogleDoc` of `src/main.ts`, lines 97-103 (the
open operation; `markdownContents` is accepted and unused, as in the
source). -/
def openGoogleDoc (env : Env) (st : PluginState)
    (title markdownContents : String) :
    Except JsError Unit × PluginState × List Effect :=
  match getAuth env st with
  | (Except.error e, st1, effs) => (Except.error e, st1, effs)
  | (Except.ok auth, st1, effs) =>
      let effs1 := effs ++ [Effect.notice "Opening Google Doc..."]
      let documentId :=
        env.findOrCreateDoc title st1.settings.googleDriveFolderId auth
      (Except.ok (), st1,
        effs1 ++
          [Effect.findOrCreateDocCall title st1.settings.googleDriveFolderId auth documentId,
           Effect.browserOpen (googleDocsUrl documentId)])

/-- Predicate: the effect is a browser launch. -/
def Effect.isBrowserOpen : Effect → Bool
  | Effect.browserOpen _ => true
  | _ => false

/-- Predicate: the effect is a `getNewToken` call (which starts the local
listener). -/
def Effect.isGetNewToken : Effect → Bool
  | Effect.getNewTokenCall => true
  | _ => false

/-- Predicate: the effect is a clipboard write. -/
def Effect.isClipboardWrite : Effect → Bool
  | Effect.clipboardWrite _ => true
  | _ => false

/-- Predicate: the effect is a user notice. -/
def Effect.isNotice : Effect → Bool
  | Effect.notice _ => true
  | _ => false

/-- Predicate: the effect is a settings persistence call. -/
def Effect.isSaveSettings : Effect → Bool
  | Effect.saveSettingsCall _ => true
  | _ => false

/-- Predicate: the effect is an `updateHtml` call. -/
def Effect.isUpdateHtml : Effect → Bool
  | Effect.updateHtmlCall _ _ _ _ => true
  | _ => false

/-- Predicate: the effect is a `hasOpenComments` conflict check. -/
def Effect.isHasOpenComments : Effect → Bool
  | Effect.hasOpenCommentsCall _ _ => true
  | _ => false

/-- Number of effects in a trace satisfying a predicate. -/
def countEffects (p : Effect → Bool) (tr : List Effect) : Nat :=
  (tr.filter p).length

/-! ## Remote-store semantics

The remote document store, observed through the effect trace: `updateHtml`
with `wipe` performs a full replace of the document's content;
`findOrCreateDoc` creates an empty document when absent.  This realizes
the collaborator contracts of the spec on an explicit store so that final
document contents can be stated. -/

/-- Look a document id up in the remote store. -/
def storeGet (store : List (String × String)) (k : String) : Option String :=
  match store with
  | [] => none
  | (a, b) :: rest => if a = k then some b else storeGet rest k

/-- Write a document's content in the remote store (insert or replace). -/
def storeSet (store : List (String × String)) (k v : String) :
    List (String × String) :=
  match store with
  | [] => [(k, v)]
  | (a, b) :: rest => if a = k then (k, v) :: rest else (a, b) :: storeSet rest k v

/-- Interpret one effect on the remote store: document creation on a miss,
full-replace write for `updateHtml`; every other effect leaves the store
unchanged. -/
def applyEffect (store : List (String × String)) : Effect → List (String × String)
  | Effect.findOrCreateDocCall _ _ _ docId =>
      match storeGet store docId with
      | none => storeSet store docId ""
      | some _ => store
  | Effect.updateHtmlCall docId content _ _ => storeSet store docId content
  | _ => store

/-- Interpret a whole effect trace on the remote store. -/
def runStore (store : List (String × String)) (tr : List Effect) :
    List (String × String) :=
  tr.foldl applyEffect store

/-! ## Concrete fixtures for witnesses and counterexamples -/

/-- Environment in which the cached token parses and is valid, documents
resolve to `"doc1"`, and no document has open comments. -/
def envValid : Env :=
  { parseTokens := fun s => if s = "" then none else some { blob := s },
    stringifyTokens := fun t => t.blob,
    hasValidToken := fun _ _ => true,
    getNewToken := fun _ => ({ id := 1 }, "https://auth.example/consent", some { blob := "fresh" }),
    findOrCreateDoc := fun _ _ _ => "doc1",
    hasOpenComments := fun _ _ => false }

/-- Like `envValid`, but the resolved document has open comments. -/
def envConflict : Env :=
  { envValid with hasOpenComments := fun _ _ => true }

/-- Like `envValid`, but the cached token fails the validity check, so the
authorization flow runs; the token round-trip succeeds. -/
def envInvalid : Env :=
  { envValid with hasValidToken := fun _ _ => false }

/-- State with configured settings, a parseable cached token and no
pending authorization. -/
def stReady : PluginState :=
  { settings := { googleDriveFolderId := "folder", credentials := "creds", tokens := "tok" },
    authorizationServer := none }

/-- State identical to `stReady` except an authorization session is
pending (the guard slot holds a listener handle). -/
def stPending : PluginState :=
  { settings := stReady.settings, authorizationServer := some { id := 7 } }

/-- Fresh-install state: `DEFAULT_SETTINGS` (in particular the token blob
is the empty string) and no pending authorization. -/
def stFresh : PluginState :=
  { settings := DEFAULT_SETTINGS, authorizationServer := none }


/-! ## Branch characterizations of `getAuth` -/

/-- Guard branch: with a pending authorization server, `getAuth` notifies
and returns `undefined` (`none`), leaving the state untouched. -/
theorem getAuth_pending (env : Env) (st : PluginState) (h : ServerHandle)
    (hG : st.authorizationServer = some h) :
    getAuth env st = (Except.ok none, st,
      [Effect.notice "Already authenticating, complete authorization."]) := by
  unfold getAuth
  rw [hG]

/-- Valid-token branch: `getAuth` returns the client with an empty effect
trace and an unchanged state. -/
theorem getAuth_valid (env : Env) (st : PluginState) (parsed : Tokens)
    (hG : st.authorizationServer = none)
    (hP : env.parseTokens st.settings.tokens = some parsed)
    (hV : env.hasValidToken (getClient st.settings.credentials) parsed = true) :
    getAuth env st =
      (Except.ok (some (getClient st.settings.credentials)), st, []) := by
  unfold getAuth
  rw [hG]
  simp only [hP, hV, if_true]

/-- Unparseable-token branch: `JSON.parse` throws before any
authorization step, with an empty effect trace. -/
theorem getAuth_parseFail (env : Env) (st : PluginState)
    (hG : st.authorizationServer = none)
    (hP : env.parseTokens st.settings.tokens = none) :
    getAuth env st = (Except.error JsError.jsonParse, st, []) := by
  unfold getAuth
  rw [hG]
  simp only [hP]

/-- Authorization-flow success branch: the round trip runs, the fresh
tokens are serialized into settings and persisted, completion is notified,
the client is returned — and the guard slot remains engaged (`some srv`),
exactly as in the source, which never resets `authorizationServer`. -/
theorem getAuth_authSuccess (env : Env) (st : PluginState) (parsed : Tokens)
    (srv : ServerHandle) (url : String) (toks : Tokens)
    (hG : st.authorizationServer = none)
    (hP : env.parseTokens st.settings.tokens = some parsed)
    (hV : env.hasValidToken (getClient st.settings.credentials) parsed = false)
    (hN : env.getNewToken (getClient st.settings.credentials) = (srv, url, some toks)) :
    getAuth env st =
      (Except.ok (some (getClient st.settings.credentials)),
       { settings := { st.settings with tokens := env.stringifyTokens toks },
         authorizationServer := some srv },
       [Effect.getNewTokenCall,
        Effect.notice "Authenticate to continue. A browser window will open and authorization url is copied to clipboard.",
        Effect.clipboardWrite url,
        Effect.browserOpen url,
        Effect.saveSettingsCall { st.settings with tokens := env.stringifyTokens toks },
        Effect.notice "Authentication complete!"]) := by
  unfold getAuth
  rw [hG]
  simp only [hP, hV, if_false, hN, Bool.false_eq_true, List.cons_append, List.nil_append]

/-- Authorization-flow failure branch: the token promise rejects; the
error propagates with the guard slot engaged and no settings change. -/
theorem getAuth_authFail (env : Env) (st : PluginState) (parsed : Tokens)
    (srv : ServerHandle) (url : String)
    (hG : st.authorizationServer = none)
    (hP : env.parseTokens st.settings.tokens = some parsed)
    (hV : env.hasValidToken (getClient st.settings.credentials) parsed = false)
    (hN : env.getNewToken (getClient st.settings.credentials) = (srv, url, none)) :
    getAuth env st =
      (Except.error JsError.authFailed,
       { settings := st.settings, authorizationServer := some srv },
       [Effect.getNewTokenCall,
        Effect.notice "Authenticate to continue. A browser window will open and authorization url is copied to clipboard.",
        Effect.clipboardWrite url,
        Effect.browserOpen url]) := by
  unfold getAuth
  rw [hG]
  simp only [hP, hV, if_false, hN, Bool.false_eq_true]

/-- The authorization logic never issues an `updateHtml` call, on any
branch. -/
theorem getAuth_no_updateHtml (env : Env) (st : PluginState) :
    countEffects Effect.isUpdateHtml (getAuth env st).2.2 = 0 := by
  unfold getAuth
  rcases hG : st.authorizationServer with _ | h
  · rcases hP : env.parseTokens st.settings.tokens with _ | parsed
    · simp [countEffects]
    · rcases hV : env.hasValidToken (getClient st.settings.credentials) parsed
      · rcases hN : env.getNewToken (getClient st.settings.credentials) with ⟨srv, url, tokRes⟩
        rcases tokRes with _ | toks <;>
          simp [hP, hV, hN, countEffects, Effect.isUpdateHtml]
      · simp [hP, hV, countEffects]
  · simp [countEffects, Effect.isUpdateHtml]

/-- Frame of `getAuth` on the settings record: the folder id and the
credentials blob are never written; the token blob is unchanged unless the
authorization flow ran (one `getNewToken` call) and its final settings
were persisted. -/
theorem getAuth_settings_frame (env : Env) (st : PluginState) :
    (getAuth env st).2.1.settings.googleDriveFolderId = st.settings.googleDriveFolderId ∧
    (getAuth env st).2.1.settings.credentials = st.settings.credentials ∧
    ((getAuth env st).2.1.settings.tokens = st.settings.tokens ∨
      (countEffects Effect.isGetNewToken (getAuth env st).2.2 = 1 ∧
       Effect.saveSettingsCall (getAuth env st).2.1.settings ∈ (getAuth env st).2.2)) := by
  unfold getAuth
  rcases hG : st.authorizationServer with _ | h
  · rcases hP : env.parseTokens st.settings.tokens with _ | parsed
    · simp [countEffects]
    · rcases hV : env.hasValidToken (getClient st.settings.credentials) parsed
      · rcases hN : env.getNewToken (getClient st.settings.credentials) with ⟨srv, url, tokRes⟩
        rcases tokRes with _ | toks
        · simp [hP, hV, hN, countEffects]
        · refine ⟨by simp [hP, hV, hN], by simp [hP, hV, hN], Or.inr ⟨?_, ?_⟩⟩
          · simp [hP, hV, hN, countEffects, Effect.isGetNewToken]
          · simp [hP, hV, hN]
      · simp [hP, hV]
  · simp

/-- The post-state of `createGoogleDoc` is the post-state of its `getAuth`
call: the push logic itself never mutates plugin state. -/
theorem createGoogleDoc_state (env : Env) (st : PluginState)
    (title content : String) :
    (createGoogleDoc env st title content).2.1 = (getAuth env st).2.1 := by
  unfold createGoogleDoc
  rcases hA : getAuth env st with ⟨res, st1, effs⟩
  rcases res with e | auth
  · rfl
  · by_cases hO : env.hasOpenComments auth
        (env.findOrCreateDoc title st1.settings.googleDriveFolderId auth) <;>
      simp [hO]

/-- The effect trace of `createGoogleDoc` extends the trace of its
`getAuth` call with document effects only: no further `getNewToken` call
and no further settings persistence. -/
theorem createGoogleDoc_trace (env : Env) (st : PluginState)
    (title content : String) :
    ∃ extra : List Effect,
      (createGoogleDoc env st title content).2.2 = (getAuth env st).2.2 ++ extra ∧
      countEffects Effect.isGetNewToken extra = 0 ∧
      countEffects Effect.isSaveSettings extra = 0 := by
  unfold createGoogleDoc
  rcases hA : getAuth env st with ⟨res, st1, effs⟩
  rcases res with e | auth
  · exact ⟨[], by simp, by simp [countEffects], by simp [countEffects]⟩
  · by_cases hO : env.hasOpenComments auth
        (env.findOrCreateDoc title st1.settings.googleDriveFolderId auth)
    · refine ⟨_, by simp [hO]; rfl, ?_, ?_⟩ <;>
        simp [countEffects, Effect.isGetNewToken, Effect.isSaveSettings]
    · refine ⟨_, by simp [hO]; rfl, ?_, ?_⟩ <;>
        simp [countEffects, Effect.isGetNewToken, Effect.isSaveSettings]

/-- The post-state of `openGoogleDoc` is the post-state of its `getAuth`
call: the open logic itself never mutates plugin state. -/
theorem openGoogleDoc_state (env : Env) (st : PluginState)
    (title content : String) :
    (openGoogleDoc env st title content).2.1 = (getAuth env st).2.1 := by
  unfold openGoogleDoc
  rcases hA : getAuth env st with ⟨res, st1, effs⟩
  rcases res with e | auth <;> rfl

/-- The effect trace of `openGoogleDoc` extends the trace of its `getAuth`
call with document effects only: no further `getNewToken` call and no
further settings persistence. -/
theorem openGoogleDoc_trace (env : Env) (st : PluginState)
    (title content : String) :
    ∃ extra : List Effect,
      (openGoogleDoc env st title content).2.2 = (getAuth env st).2.2 ++ extra ∧
      countEffects Effect.isGetNewToken extra = 0 ∧
      countEffects Effect.isSaveSettings extra = 0 := by
  unfold openGoogleDoc
  rcases hA : getAuth env st with ⟨res, st1, effs⟩
  rcases res with e | auth
  · exact ⟨[], by simp, by simp [countEffects], by simp [countEffects]⟩
  · refine ⟨_, by simp; rfl, ?_, ?_⟩ <;>
      simp [countEffects, Effect.isGetNewToken, Effect.isSaveSettings]


/-- Reading back a key just written yields the written value. -/
theorem storeGet_storeSet (store : List (String × String)) (k v : String) :
    storeGet (storeSet store k v) k = some v := by
  induction store with
  | nil => simp [storeSet, storeGet]
  | cons hd tl ih =>
      obtain ⟨a, b⟩ := hd
      by_cases hak : a = k
      · simp [storeSet, storeGet, hak]
      · simp [storeSet, storeGet, hak, ih]


/-- Counting effects distributes over trace concatenation. -/
theorem countEffects_append (p : Effect → Bool) (a b : List Effect) :
    countEffects p (a ++ b) = countEffects p a + countEffects p b := by
  simp [countEffects]

/-! ## Claims -/

/-- C1, counterexample: in the concrete pending state `stPending`, the
`getAuth` call does NOT fail with an `AuthInProgressError` (or any error):
it completes normally with result `Except.ok none` — the source's bare
`return` — its only effect being the "already authenticating" notice.
This refutes the claim that the call fails with `AuthInProgressError`. -/
theorem C1_counterexample :
    (getAuth envValid stPending).1 = Except.ok none ∧
    (getAuth envValid stPending).2.2 =
      [Effect.notice "Already authenticating, complete authorization."] :=
  ⟨rfl, rfl⟩

/-- C1, amended: for every state in which an authorization session is
pending (the guard slot is non-null), a call to `getAuth()` notifies
"already authenticating" and returns no credential (`undefined`) without
raising an error, starts no second browser launch and no second listener,
leaves the state untouched, and does not join or queue behind the
in-flight flow. -/
theorem C1_single_flight (env : Env) (st : PluginState) (h : ServerHandle)
    (hG : st.authorizationServer = some h) :
    getAuth env st = (Except.ok none, st,
      [Effect.notice "Already authenticating, complete authorization."]) ∧
    countEffects Effect.isBrowserOpen (getAuth env st).2.2 = 0 ∧
    countEffects Effect.isGetNewToken (getAuth env st).2.2 = 0 := by
  have hE := getAuth_pending env st h hG
  refine ⟨hE, ?_, ?_⟩ <;> rw [hE] <;> rfl

/-- C1, witness: the amended theorem applied to the concrete pending
state. -/
theorem C1_single_flight_witness :
    getAuth envValid stPending = (Except.ok none, stPending,
      [Effect.notice "Already authenticating, complete authorization."]) ∧
    countEffects Effect.isBrowserOpen (getAuth envValid stPending).2.2 = 0 ∧
    countEffects Effect.isGetNewToken (getAuth envValid stPending).2.2 = 0 :=
  C1_single_flight envValid stPending { id := 7 } rfl

/-- C2, code evaluation at the failing input: in `stReady` with an
invalid cached token under `envInvalid`, the authorization round-trip
succeeds — the client is returned, the fresh tokens are serialized into
the settings, persisted, and completion is notified — yet the guard slot
still holds the listener handle (the source never resets
`authorizationServer`), so the next `getAuth` call takes the
already-authenticating branch and yields no credential.  This refutes the
claim that the guard is cleared back to null on success. -/
theorem C2_guard_not_cleared_after_success :
    (getAuth envInvalid stReady).1 = Except.ok (some (getClient "creds")) ∧
    (getAuth envInvalid stReady).2.1.settings.tokens = "fresh" ∧
    Effect.saveSettingsCall (getAuth envInvalid stReady).2.1.settings ∈
      (getAuth envInvalid stReady).2.2 ∧
    Effect.notice "Authentication complete!" ∈ (getAuth envInvalid stReady).2.2 ∧
    (getAuth envInvalid stReady).2.1.authorizationServer = some { id := 1 } ∧
    (getAuth envInvalid ((getAuth envInvalid stReady).2.1)).1 = Except.ok none := by
  refine ⟨rfl, rfl, ?_, ?_, rfl, rfl⟩ <;> decide

/-- C3: for every invocation of push in which `hasOpenComments` returns
true for the resolved document, `updateHtml` is never invoked, the
pre-existing document's link is copied to the clipboard, the user is
notified that open comments block the push, and the call terminates with
the conflict outcome rather than an error. -/
theorem C3_conflict_short_circuit (env : Env) (st : PluginState)
    (title content : String) (auth : Option Client) (st1 : PluginState)
    (effs : List Effect)
    (hA : getAuth env st = (Except.ok auth, st1, effs))
    (hC : env.hasOpenComments auth
        (env.findOrCreateDoc title st1.settings.googleDriveFolderId auth) = true) :
    (createGoogleDoc env st title content).1 =
      Except.ok (PushOutcome.conflict (googleDocsUrl
        (env.findOrCreateDoc title st1.settings.googleDriveFolderId auth))) ∧
    countEffects Effect.isUpdateHtml (createGoogleDoc env st title content).2.2 = 0 ∧
    Effect.clipboardWrite (googleDocsUrl
        (env.findOrCreateDoc title st1.settings.googleDriveFolderId auth)) ∈
      (createGoogleDoc env st title content).2.2 ∧
    Effect.notice "Document has open comments. Please resolve them before pushing content." ∈
      (createGoogleDoc env st title content).2.2 := by
  have h0 : countEffects Effect.isUpdateHtml effs = 0 := by
    have h1 := getAuth_no_updateHtml env st
    rw [hA] at h1
    exact h1
  have hmem : ∀ a ∈ effs, ¬ Effect.isUpdateHtml a = true := by
    simp only [countEffects] at h0
    exact List.filter_eq_nil_iff.mp (List.length_eq_zero.mp h0)
  unfold createGoogleDoc
  rw [hA]
  refine ⟨by simp [hC], ?_, by simp [hC], by simp [hC]⟩
  simp [hC, countEffects_append, h0, countEffects, Effect.isUpdateHtml]
  intro a ha
  exact Bool.eq_false_iff.mpr (hmem a ha)

/-- C3, witness: the theorem applied to the concrete conflict
environment. -/
theorem C3_conflict_short_circuit_witness :
    (createGoogleDoc envConflict stReady "Notes" "v2").1 =
      Except.ok (PushOutcome.conflict (googleDocsUrl
        (envConflict.findOrCreateDoc "Notes" stReady.settings.googleDriveFolderId
          (some (getClient stReady.settings.credentials))))) ∧
    countEffects Effect.isUpdateHtml (createGoogleDoc envConflict stReady "Notes" "v2").2.2 = 0 ∧
    Effect.clipboardWrite (googleDocsUrl
        (envConflict.findOrCreateDoc "Notes" stReady.settings.googleDriveFolderId
          (some (getClient stReady.settings.credentials)))) ∈
      (createGoogleDoc envConflict stReady "Notes" "v2").2.2 ∧
    Effect.notice "Document has open comments. Please resolve them before pushing content." ∈
      (createGoogleDoc envConflict stReady "Notes" "v2").2.2 :=
  C3_conflict_short_circuit envConflict stReady "Notes" "v2"
    (some (getClient stReady.settings.credentials)) stReady [] rfl rfl

/-- C4: for every state with a cached token that passes the validity
check (and no pending session), `getAuth()` returns the client
immediately with no side effects: an empty effect trace — hence zero
browser launches, zero clipboard writes, zero token-persistence writes,
zero notices — and an unchanged state, hence no mutation of Settings. -/
theorem C4_valid_token_no_side_effects (env : Env) (st : PluginState)
    (parsed : Tokens)
    (hG : st.authorizationServer = none)
    (hP : env.parseTokens st.settings.tokens = some parsed)
    (hV : env.hasValidToken (getClient st.settings.credentials) parsed = true) :
    getAuth env st =
      (Except.ok (some (getClient st.settings.credentials)), st, []) ∧
    (getAuth env st).2.1 = st ∧
    countEffects Effect.isBrowserOpen (getAuth env st).2.2 = 0 ∧
    countEffects Effect.isClipboardWrite (getAuth env st).2.2 = 0 ∧
    countEffects Effect.isSaveSettings (getAuth env st).2.2 = 0 ∧
    countEffects Effect.isNotice (getAuth env st).2.2 = 0 := by
  have hE := getAuth_valid env st parsed hG hP hV
  refine ⟨hE, ?_, ?_, ?_, ?_, ?_⟩ <;> rw [hE] <;> rfl

/-- C4, witness: the theorem applied to the concrete valid-token state. -/
theorem C4_valid_token_no_side_effects_witness :
    getAuth envValid stReady =
      (Except.ok (some (getClient stReady.settings.credentials)), stReady, []) ∧
    (getAuth envValid stReady).2.1 = stReady ∧
    countEffects Effect.isBrowserOpen (getAuth envValid stReady).2.2 = 0 ∧
    countEffects Effect.isClipboardWrite (getAuth envValid stReady).2.2 = 0 ∧
    countEffects Effect.isSaveSettings (getAuth envValid stReady).2.2 = 0 ∧
    countEffects Effect.isNotice (getAuth envValid stReady).2.2 = 0 :=
  C4_valid_token_no_side_effects envValid stReady { blob := "tok" } rfl rfl rfl

/-- C5, code evaluation at the failing input: in the fresh-install state
the token blob is the empty string (`DEFAULT_SETTINGS`), and
`JSON.parse("")` throws in JavaScript (modelled by
`envValid.parseTokens "" = none`), so `getAuth()` throws on the validity
check itself — before the claimed single new-token request can be issued:
the trace is empty and contains zero `getNewToken` calls.  This refutes
the claim for the absent-token case: the claim (and the spec's scenario
for an empty `tokenBlob`) is the evident intent, and the unguarded
`JSON.parse(this.settings.tokens)` in the source is the slip. -/
theorem C5_empty_token_blob_parse_throws :
    stFresh.settings.tokens = "" ∧
    envValid.parseTokens "" = none ∧
    getAuth envValid stFresh = (Except.error JsError.jsonParse, stFresh, []) ∧
    countEffects Effect.isGetNewToken (getAuth envValid stFresh).2.2 = 0 :=
  ⟨rfl, rfl, rfl, rfl⟩

/-- Running the no-conflict push trace over any remote store leaves the
resolved document holding exactly the pushed content (full replace). -/
theorem runStore_push_trace (s : List (String × String))
    (title folderId : String) (a : Option Client) (d content : String) :
    storeGet (runStore s
      [Effect.findOrCreateDocCall title folderId a d,
       Effect.hasOpenCommentsCall a d,
       Effect.updateHtmlCall d content a true,
       Effect.clipboardWrite (googleDocsUrl d),
       Effect.notice "Document updated."]) d = some content := by
  rcases hsd : storeGet s d with _ | old <;>
    simp [runStore, applyEffect, hsd, storeGet_storeSet]

/-- C6, counterexample: in the concrete valid-token state, the open
operation reaches its terminal path normally (`Except.ok ()`) yet its
trace contains zero clipboard writes — refuting "for both push and open,
the taken terminal path performs exactly one clipboard write". -/
theorem C6_counterexample :
    (openGoogleDoc envValid stReady "Notes" "body").1 = Except.ok () ∧
    countEffects Effect.isClipboardWrite
      (openGoogleDoc envValid stReady "Notes" "body").2.2 = 0 :=
  ⟨rfl, rfl⟩

/-- C6, amended: past authorization (valid cached token, no pending
session), the taken terminal path of push — conflict or success alike —
performs exactly one clipboard write, whose content is the document's
link, and exactly one notification; open performs zero clipboard writes,
launching the document's link in the browser instead, and exactly one
notification. -/
theorem C6_terminal_effects (env : Env) (st : PluginState) (parsed : Tokens)
    (title content : String)
    (hG : st.authorizationServer = none)
    (hP : env.parseTokens st.settings.tokens = some parsed)
    (hV : env.hasValidToken (getClient st.settings.credentials) parsed = true) :
    countEffects Effect.isClipboardWrite
      (createGoogleDoc env st title content).2.2 = 1 ∧
    Effect.clipboardWrite (googleDocsUrl (env.findOrCreateDoc title
        st.settings.googleDriveFolderId (some (getClient st.settings.credentials)))) ∈
      (createGoogleDoc env st title content).2.2 ∧
    countEffects Effect.isNotice (createGoogleDoc env st title content).2.2 = 1 ∧
    countEffects Effect.isClipboardWrite
      (openGoogleDoc env st title content).2.2 = 0 ∧
    countEffects Effect.isNotice (openGoogleDoc env st title content).2.2 = 1 ∧
    Effect.browserOpen (googleDocsUrl (env.findOrCreateDoc title
        st.settings.googleDriveFolderId (some (getClient st.settings.credentials)))) ∈
      (openGoogleDoc env st title content).2.2 := by
  have hE := getAuth_valid env st parsed hG hP hV
  unfold createGoogleDoc openGoogleDoc
  rw [hE]
  by_cases hO : env.hasOpenComments (some (getClient st.settings.credentials))
      (env.findOrCreateDoc title st.settings.googleDriveFolderId
        (some (getClient st.settings.credentials))) = true <;>
    simp [hO, countEffects, Effect.isClipboardWrite, Effect.isNotice]

/-- C6, witness: the amended theorem applied to the concrete valid-token
state. -/
theorem C6_terminal_effects_witness :
    countEffects Effect.isClipboardWrite
      (createGoogleDoc envValid stReady "Notes" "body").2.2 = 1 ∧
    Effect.clipboardWrite (googleDocsUrl (envValid.findOrCreateDoc "Notes"
        stReady.settings.googleDriveFolderId
        (some (getClient stReady.settings.credentials)))) ∈
      (createGoogleDoc envValid stReady "Notes" "body").2.2 ∧
    countEffects Effect.isNotice
      (createGoogleDoc envValid stReady "Notes" "body").2.2 = 1 ∧
    countEffects Effect.isClipboardWrite
      (openGoogleDoc envValid stReady "Notes" "body").2.2 = 0 ∧
    countEffects Effect.isNotice
      (openGoogleDoc envValid stReady "Notes" "body").2.2 = 1 ∧
    Effect.browserOpen (googleDocsUrl (envValid.findOrCreateDoc "Notes"
        stReady.settings.googleDriveFolderId
        (some (getClient stReady.settings.credentials)))) ∈
      (openGoogleDoc envValid stReady "Notes" "body").2.2 :=
  C6_terminal_effects envValid stReady { blob := "tok" } "Notes" "body" rfl rfl rfl

/-- C7: `openGoogleDoc` never calls `updateHtml` and never performs a
conflict check, for every environment, state and input — its trace
contains zero `updateHtml` calls and zero `hasOpenComments` calls. -/
theorem C7_open_never_calls_updateHtml (env : Env) (st : PluginState)
    (title content : String) :
    countEffects Effect.isUpdateHtml (openGoogleDoc env st title content).2.2 = 0 ∧
    countEffects Effect.isHasOpenComments
      (openGoogleDoc env st title content).2.2 = 0 := by
  have h1 := getAuth_no_updateHtml env st
  have h2 : countEffects Effect.isHasOpenComments (getAuth env st).2.2 = 0 := by
    unfold getAuth
    rcases hG : st.authorizationServer with _ | h
    · rcases hP : env.parseTokens st.settings.tokens with _ | parsed
      · simp [countEffects]
      · rcases hV : env.hasValidToken (getClient st.settings.credentials) parsed
        · rcases hN : env.getNewToken (getClient st.settings.credentials) with
            ⟨srv, url, tokRes⟩
          rcases tokRes with _ | toks <;>
            simp [hP, hV, hN, countEffects, Effect.isHasOpenComments]
        · simp [hP, hV, countEffects]
    · simp [countEffects, Effect.isHasOpenComments]
  unfold openGoogleDoc
  rcases hA : getAuth env st with ⟨res, st1, effs⟩
  rw [hA] at h1 h2
  rcases res with e | auth
  · exact ⟨h1, h2⟩
  · have h1' : countEffects Effect.isUpdateHtml effs = 0 := h1
    have h2' : countEffects Effect.isHasOpenComments effs = 0 := h2
    dsimp only
    constructor
    · rw [countEffects_append, countEffects_append, h1']
      rfl
    · rw [countEffects_append, countEffects_append, h2']
      rfl

/-- C8: push is idempotent in the no-conflict case.  With a valid cached
token, no pending session, and `hasOpenComments` false for the resolved
document (`findOrCreateDoc` is deterministic by construction, being a
pure function of title, folder and credential), two successive
`createGoogleDoc` calls with the same title and content yield the same
document link both times, and after each call the remote document's
content equals the pushed content (full replace). -/
theorem C8_push_idempotent (env : Env) (st : PluginState) (parsed : Tokens)
    (store : List (String × String)) (title content : String)
    (hG : st.authorizationServer = none)
    (hP : env.parseTokens st.settings.tokens = some parsed)
    (hV : env.hasValidToken (getClient st.settings.credentials) parsed = true)
    (hC : env.hasOpenComments (some (getClient st.settings.credentials))
        (env.findOrCreateDoc title st.settings.googleDriveFolderId
          (some (getClient st.settings.credentials))) = false) :
    (createGoogleDoc env st title content).1 =
      Except.ok (PushOutcome.updated (googleDocsUrl
        (env.findOrCreateDoc title st.settings.googleDriveFolderId
          (some (getClient st.settings.credentials))))) ∧
    (createGoogleDoc env (createGoogleDoc env st title content).2.1
        title content).1 =
      Except.ok (PushOutcome.updated (googleDocsUrl
        (env.findOrCreateDoc title st.settings.googleDriveFolderId
          (some (getClient st.settings.credentials))))) ∧
    storeGet (runStore store (createGoogleDoc env st title content).2.2)
      (env.findOrCreateDoc title st.settings.googleDriveFolderId
        (some (getClient st.settings.credentials))) = some content ∧
    storeGet (runStore (runStore store (createGoogleDoc env st title content).2.2)
        (createGoogleDoc env (createGoogleDoc env st title content).2.1
          title content).2.2)
      (env.findOrCreateDoc title st.settings.googleDriveFolderId
        (some (getClient st.settings.credentials))) = some content := by
  have hE := getAuth_valid env st parsed hG hP hV
  have hPush : createGoogleDoc env st title content =
      (Except.ok (PushOutcome.updated (googleDocsUrl
        (env.findOrCreateDoc title st.settings.googleDriveFolderId
          (some (getClient st.settings.credentials))))), st,
       [Effect.findOrCreateDocCall title st.settings.googleDriveFolderId
          (some (getClient st.settings.credentials))
          (env.findOrCreateDoc title st.settings.googleDriveFolderId
            (some (getClient st.settings.credentials))),
        Effect.hasOpenCommentsCall (some (getClient st.settings.credentials))
          (env.findOrCreateDoc title st.settings.googleDriveFolderId
            (some (getClient st.settings.credentials))),
        Effect.updateHtmlCall (env.findOrCreateDoc title
            st.settings.googleDriveFolderId
            (some (getClient st.settings.credentials))) content
          (some (getClient st.settings.credentials)) true,
        Effect.clipboardWrite (googleDocsUrl
          (env.findOrCreateDoc title st.settings.googleDriveFolderId
            (some (getClient st.settings.credentials)))),
        Effect.notice "Document updated."]) := by
    unfold createGoogleDoc
    rw [hE]
    simp [hC]
  refine ⟨by rw [hPush], ?_, ?_, ?_⟩
  · rw [hPush]
    rw [hPush]
  · rw [hPush]
    exact runStore_push_trace store title st.settings.googleDriveFolderId _ _ content
  · rw [hPush]
    rw [hPush]
    exact runStore_push_trace _ title st.settings.googleDriveFolderId _ _ content

/-- C8, witness: the theorem applied to the concrete valid-token,
no-conflict fixture with an empty initial remote store. -/
theorem C8_push_idempotent_witness :
    (createGoogleDoc envValid stReady "Notes" "# Hello").1 =
      Except.ok (PushOutcome.updated (googleDocsUrl
        (envValid.findOrCreateDoc "Notes" stReady.settings.googleDriveFolderId
          (some (getClient stReady.settings.credentials))))) ∧
    (createGoogleDoc envValid (createGoogleDoc envValid stReady "Notes" "# Hello").2.1
        "Notes" "# Hello").1 =
      Except.ok (PushOutcome.updated (googleDocsUrl
        (envValid.findOrCreateDoc "Notes" stReady.settings.googleDriveFolderId
          (some (getClient stReady.settings.credentials))))) ∧
    storeGet (runStore [] (createGoogleDoc envValid stReady "Notes" "# Hello").2.2)
      (envValid.findOrCreateDoc "Notes" stReady.settings.googleDriveFolderId
        (some (getClient stReady.settings.credentials))) = some "# Hello" ∧
    storeGet (runStore
        (runStore [] (createGoogleDoc envValid stReady "Notes" "# Hello").2.2)
        (createGoogleDoc envValid (createGoogleDoc envValid stReady "Notes" "# Hello").2.1
          "Notes" "# Hello").2.2)
      (envValid.findOrCreateDoc "Notes" stReady.settings.googleDriveFolderId
        (some (getClient stReady.settings.credentials))) = some "# Hello" :=
  C8_push_idempotent envValid stReady { blob := "tok" } [] "Notes" "# Hello"
    rfl rfl rfl rfl

/-- C9: when `getAuth()` takes the already-authenticating branch it
returns `undefined` (`Except.ok none`) rather than raising an error, and
the calling operations do not stop: push proceeds to `findOrCreateDoc`,
the conflict check and (in the stated no-conflict run) the `updateHtml`
write, all with an undefined credential (`none`), and open likewise
proceeds to `findOrCreateDoc` with the undefined credential. -/
theorem C9_pending_guard_operations_proceed (env : Env) (st : PluginState)
    (h : ServerHandle) (title content : String)
    (hG : st.authorizationServer = some h)
    (hO : env.hasOpenComments none
        (env.findOrCreateDoc title st.settings.googleDriveFolderId none) = false) :
    (getAuth env st).1 = Except.ok none ∧
    Effect.findOrCreateDocCall title st.settings.googleDriveFolderId none
        (env.findOrCreateDoc title st.settings.googleDriveFolderId none) ∈
      (createGoogleDoc env st title content).2.2 ∧
    Effect.hasOpenCommentsCall none
        (env.findOrCreateDoc title st.settings.googleDriveFolderId none) ∈
      (createGoogleDoc env st title content).2.2 ∧
    Effect.updateHtmlCall
        (env.findOrCreateDoc title st.settings.googleDriveFolderId none)
        content none true ∈ (createGoogleDoc env st title content).2.2 ∧
    Effect.findOrCreateDocCall title st.settings.googleDriveFolderId none
        (env.findOrCreateDoc title st.settings.googleDriveFolderId none) ∈
      (openGoogleDoc env st title content).2.2 := by
  have hE := getAuth_pending env st h hG
  refine ⟨by rw [hE], ?_, ?_, ?_, ?_⟩
  · unfold createGoogleDoc
    rw [hE]
    simp [hO]
  · unfold createGoogleDoc
    rw [hE]
    simp [hO]
  · unfold createGoogleDoc
    rw [hE]
    simp [hO]
  · unfold openGoogleDoc
    rw [hE]
    simp

/-- C9, witness: the theorem applied to the concrete pending state. -/
theorem C9_pending_guard_operations_proceed_witness :
    (getAuth envValid stPending).1 = Except.ok none ∧
    Effect.findOrCreateDocCall "Notes" stPending.settings.googleDriveFolderId none
        (envValid.findOrCreateDoc "Notes" stPending.settings.googleDriveFolderId none) ∈
      (createGoogleDoc envValid stPending "Notes" "body").2.2 ∧
    Effect.hasOpenCommentsCall none
        (envValid.findOrCreateDoc "Notes" stPending.settings.googleDriveFolderId none) ∈
      (createGoogleDoc envValid stPending "Notes" "body").2.2 ∧
    Effect.updateHtmlCall
        (envValid.findOrCreateDoc "Notes" stPending.settings.googleDriveFolderId none)
        "body" none true ∈ (createGoogleDoc envValid stPending "Notes" "body").2.2 ∧
    Effect.findOrCreateDocCall "Notes" stPending.settings.googleDriveFolderId none
        (envValid.findOrCreateDoc "Notes" stPending.settings.googleDriveFolderId none) ∈
      (openGoogleDoc envValid stPending "Notes" "body").2.2 :=
  C9_pending_guard_operations_proceed envValid stPending { id := 7 } "Notes" "body"
    rfl rfl

/-- C10: no sync or auth operation mutates the folder id or credentials
fields of the settings; the tokens field is unchanged unless the
authorization flow ran (exactly one `getNewToken` call in the trace) and
the resulting settings were persisted — which the source does only on the
successful-authorization path. -/
theorem C10_settings_frame (env : Env) (st : PluginState)
    (title content : String) :
    ((getAuth env st).2.1.settings.googleDriveFolderId =
        st.settings.googleDriveFolderId ∧
     (getAuth env st).2.1.settings.credentials = st.settings.credentials ∧
     ((getAuth env st).2.1.settings.tokens = st.settings.tokens ∨
       (countEffects Effect.isGetNewToken (getAuth env st).2.2 = 1 ∧
        Effect.saveSettingsCall (getAuth env st).2.1.settings ∈
          (getAuth env st).2.2))) ∧
    ((createGoogleDoc env st title content).2.1.settings.googleDriveFolderId =
        st.settings.googleDriveFolderId ∧
     (createGoogleDoc env st title content).2.1.settings.credentials =
        st.settings.credentials ∧
     ((createGoogleDoc env st title content).2.1.settings.tokens =
        st.settings.tokens ∨
       (countEffects Effect.isGetNewToken
          (createGoogleDoc env st title content).2.2 = 1 ∧
        Effect.saveSettingsCall
            (createGoogleDoc env st title content).2.1.settings ∈
          (createGoogleDoc env st title content).2.2))) ∧
    ((openGoogleDoc env st title content).2.1.settings.googleDriveFolderId =
        st.settings.googleDriveFolderId ∧
     (openGoogleDoc env st title content).2.1.settings.credentials =
        st.settings.credentials ∧
     ((openGoogleDoc env st title content).2.1.settings.tokens =
        st.settings.tokens ∨
       (countEffects Effect.isGetNewToken
          (openGoogleDoc env st title content).2.2 = 1 ∧
        Effect.saveSettingsCall
            (openGoogleDoc env st title content).2.1.settings ∈
          (openGoogleDoc env st title content).2.2))) := by
  obtain ⟨hf, hc, ht⟩ := getAuth_settings_frame env st
  refine ⟨⟨hf, hc, ht⟩, ?_, ?_⟩
  · obtain ⟨extra, hTr, hCnt, _⟩ := createGoogleDoc_trace env st title content
    have hStEq := createGoogleDoc_state env st title content
    rw [hStEq, hTr]
    refine ⟨hf, hc, ?_⟩
    rcases ht with hKeep | ⟨h1, h2⟩
    · exact Or.inl hKeep
    · exact Or.inr ⟨by rw [countEffects_append, h1, hCnt],
        List.mem_append_left _ h2⟩
  · obtain ⟨extra, hTr, hCnt, _⟩ := openGoogleDoc_trace env st title content
    have hStEq := openGoogleDoc_state env st title content
    rw [hStEq, hTr]
    refine ⟨hf, hc, ?_⟩
    rcases ht with hKeep | ⟨h1, h2⟩
    · exact Or.inl hKeep
    · exact Or.inr ⟨by rw [countEffects_append, h1, hCnt],
        List.mem_append_left _ h2⟩
